import Mathlib

/-!
Verification of the embedding HTTP server (`docker/embedding-server.py`).

The server loads a sentence-embedding model at startup and exposes two
routes: `POST /embed` (embed a single string or a list of strings) and
`GET /health`.  We embed the request handlers shallowly: JSON values are an
inductive type mirroring Python values as produced by JSON parsing, the
`try`-block of the embed handler is an `Except`-valued computation whose
`error` branch is a raised Python exception, and the surrounding
`except Exception` clause converts any raised exception into a 500 response.
The external model library call `model.encode` is an abstract parameter,
modelled from the spec (one vector per input string, order preserving,
failing inside the library on non-string input).
-/

namespace EmbeddingServer

/-- JSON values as produced by parsing a request body (Python values
`None`, `bool`, number, `str`, `list`, `dict`). Numbers are modelled as
rationals. -/
inductive Json where
  | null
  | bool (b : Bool)
  | num (q : ℚ)
  | str (s : String)
  | arr (xs : List Json)
  | obj (kvs : List (String × Json))

/-- Python truthiness (`not data` negates this): `None`, `False`, `0`,
the empty string, the empty list and the empty dict are falsy. -/
def Json.truthy : Json → Bool
  | .null => false
  | .bool b => b
  | .num q => decide (q ≠ 0)
  | .str s => decide (s ≠ "")
  | .arr xs => !xs.isEmpty
  | .obj kvs => !kvs.isEmpty

/-- `isinstance(v, str)`. -/
def Json.isStr : Json → Bool
  | .str _ => true
  | _ => false

/-- Whether the character list `needle` is a prefix of `hay`. -/
def charsStart : List Char → List Char → Bool
  | [], _ => true
  | _ :: _, [] => false
  | a :: as, b :: bs => a == b && charsStart as bs

/-- Whether the character list `needle` occurs contiguously in `hay`
(Python substring containment). -/
def charsHasSub (needle : List Char) : List Char → Bool
  | [] => needle.isEmpty
  | b :: bs => charsStart needle (b :: bs) || charsHasSub needle bs

/-- Python membership test `k in data` for a string key `k`.  On a dict it
tests key membership, on a list it tests element equality (a Python string
equals only an equal string), on a string it tests substring containment,
and on `None`, booleans and numbers it raises `TypeError`, modelled as
`Except.error`. -/
def Json.containsKey (d : Json) (k : String) : Except String Bool :=
  match d with
  | .obj kvs => .ok (kvs.lookup k).isSome
  | .arr xs => .ok (xs.any (fun x => match x with | .str s => s == k | _ => false))
  | .str s => .ok (charsHasSub k.data s.data)
  | .bool _ => .error "argument of type bool is not iterable"
  | .num _ => .error "argument of type int is not iterable"
  | .null => .error "argument of type NoneType is not iterable"

/-- Python subscription `data[k]` for a string key `k`.  On a dict it looks
the key up (JSON-parsed dicts have unique keys); every other receiver
raises `TypeError` (or `KeyError` for a missing key), modelled as
`Except.error`. -/
def Json.getItem (d : Json) (k : String) : Except String Json :=
  match d with
  | .obj kvs =>
    match kvs.lookup k with
    | some v => .ok v
    | none => .error ("KeyError: " ++ k)
  | .arr _ => .error "list indices must be integers or slices, not str"
  | .str _ => .error "string indices must be integers"
  | .bool _ => .error "bool object is not subscriptable"
  | .num _ => .error "int object is not subscriptable"
  | .null => .error "NoneType object is not subscriptable"

/-- Extract the underlying strings of a JSON list, if every element is a
string. -/
def asStrings : List Json → Option (List String)
  | [] => some []
  | .str s :: rest => (asStrings rest).map (fun ss => s :: ss)
  | _ :: _ => none

/-- Modelled from the spec: the external embedding library call
`model.encode(texts)` ("an external library providing
`encode(texts) -> vectors`", out of scope for this repository).  Applied to
a sequence of strings it returns one vector per string, in order, given by
the abstract per-text embedding `f`; per the spec Open Question, input that
is not a sequence of strings is "passed through to the encoder" and fails
inside it, modelled as a raised exception. -/
def modelEncode (f : String → List ℚ) (texts : Json) : Except String (List (List ℚ)) :=
  match texts with
  | .arr xs =>
    match asStrings xs with
    | some ss => .ok (ss.map f)
    | none => .error "encode failed: inputs must be strings"
  | _ => .error "encode failed: inputs must be a sequence of strings"

/-- Line 27-30 of the source: a single string is wrapped into a singleton
list (`texts = [inputs]`), anything else is passed on unchanged
(`texts = inputs`). -/
def pyTexts (inputs : Json) : Json :=
  match inputs with
  | .str s => .arr [.str s]
  | _ => inputs

/-- An HTTP response: status code plus JSON body. -/
structure HttpResponse where
  status : Nat
  body : Json

/-- The body of an error response, `jsonify({'error': m})`. -/
def errJson (m : String) : Json := .obj [("error", .str m)]

/-- A numeric vector serialised to JSON (`.tolist()` plus `jsonify`). -/
def vecJson (v : List ℚ) : Json := .arr (v.map Json.num)

/-- The outcome of `request.get_json()` as observed by the handler:
either a parsed JSON value, or `None` (no JSON media type declared,
classic framework behaviour), or a raised exception with message `m`
(the framework raises `BadRequest` on a declared-JSON body that fails to
parse, `UnsupportedMediaType` on newer versions for an undeclared one). -/
inductive GetJsonOutcome where
  | ok (j : Json)
  | noJson
  | raises (m : String)

/-- The `try`-block of the `/embed` handler (source lines 19-41):
`Except.error m` is an exception with message `m` escaping to the
`except` clause.  `None` and falsy parsed bodies, and truthy bodies whose
membership test finds no `inputs`, yield the 400 response; otherwise the
inputs are normalised, encoded, and reshaped according to
`isinstance(inputs, str)`. -/
def embedCore (f : String → List ℚ) (g : GetJsonOutcome) : Except String HttpResponse :=
  match g with
  | .raises m => .error m
  | .noJson => .ok ⟨400, errJson "Missing inputs field"⟩
  | .ok data =>
    if data.truthy = false then .ok ⟨400, errJson "Missing inputs field"⟩
    else
      match data.containsKey "inputs" with
      | .error m => .error m
      | .ok false => .ok ⟨400, errJson "Missing inputs field"⟩
      | .ok true =>
        match data.getItem "inputs" with
        | .error m => .error m
        | .ok inputs =>
          match modelEncode f (pyTexts inputs) with
          | .error m => .error m
          | .ok embeddings =>
            if inputs.isStr then
              match embeddings with
              | [] => .error "list index out of range"
              | v :: _ => .ok ⟨200, vecJson v⟩
            else
              .ok ⟨200, Json.arr (embeddings.map vecJson)⟩

/-- The full `/embed` handler: the `except Exception` clause (source lines
43-45) converts any raised exception into a 500 response carrying the
exception message. -/
def embedHandler (f : String → List ℚ) (g : GetJsonOutcome) : HttpResponse :=
  match embedCore f g with
  | .ok r => r
  | .error m => ⟨500, errJson m⟩

/-- The `/health` handler (source lines 47-49). -/
def healthResponse (name : String) : HttpResponse :=
  ⟨200, .obj [("status", .str "ok"), ("model", .str name)]⟩

/-- The default model identifier (source line 11). -/
def defaultModelId : String := "sentence-transformers/all-MiniLM-L6-v2"

/-- `os.getenv('MODEL_ID', default)`: the configured identifier if the
environment variable is set, the default otherwise. -/
def resolveModelName (envModelId : Option String) : String :=
  envModelId.getD defaultModelId

/-- The process-lifetime state: the resolved model identifier and the
loaded model, represented by its per-text embedding function. -/
structure ServerState where
  model_name : String
  model : String → List ℚ

/-- The state established at startup (source lines 11-13). -/
def initState (envModelId : Option String) (loaded : String → List ℚ) : ServerState :=
  ⟨resolveModelName envModelId, loaded⟩

/-- An incoming request: a `POST /embed` with the body as observed through
`request.get_json()`, or a `GET /health`. -/
inductive Request where
  | postEmbed (g : GetJsonOutcome)
  | getHealth

/-- Dispatch one request.  The handlers read the module-level state and
never assign to it, so the state is returned unchanged. -/
def handle (st : ServerState) (r : Request) : HttpResponse × ServerState :=
  match r with
  | .postEmbed g => (embedHandler st.model g, st)
  | .getHealth => (healthResponse st.model_name, st)

/-- Serve a sequence of requests in order, threading the process state. -/
def serve (st : ServerState) : List Request → List HttpResponse × ServerState
  | [] => ([], st)
  | r :: rs =>
    ((handle st r).1 :: (serve (handle st r).2 rs).1, (serve (handle st r).2 rs).2)

/-- A concrete embedding function used to instantiate witnesses. -/
def sampleEmbed : String → List ℚ := fun s => [(s.length : ℚ)]

/-- The message of the exception the framework raises on a declared-JSON
body that fails to parse (empty or malformed). -/
def badRequestMsg : String :=
  "400 Bad Request: The browser (or proxy) sent a request that this server could not understand."

/-! ## Helper lemmas -/

/-- Handling any single request leaves the process state unchanged. -/
theorem handle_snd (st : ServerState) (r : Request) : (handle st r).2 = st := by
  cases r <;> rfl

/-- Serving any sequence of requests leaves the process state unchanged. -/
theorem serve_snd (st : ServerState) (rs : List Request) : (serve st rs).2 = st := by
  induction rs generalizing st with
  | nil => rfl
  | cons r rs ih =>
    show (serve (handle st r).2 rs).2 = st
    rw [handle_snd]
    exact ih st

/-- The responses of a served sequence are the responses of each request
handled against the initial state. -/
theorem serve_fst (st : ServerState) (rs : List Request) :
    (serve st rs).1 = rs.map (fun r => (handle st r).1) := by
  induction rs generalizing st with
  | nil => rfl
  | cons r rs ih =>
    show (handle st r).1 :: (serve (handle st r).2 rs).1 = _
    rw [handle_snd, ih st, List.map]

/-- One response per request. -/
theorem serve_length (st : ServerState) (rs : List Request) :
    (serve st rs).1.length = rs.length := by
  rw [serve_fst, List.length_map]

/-- Unfolding the embed handler on a parsed object body that binds
`inputs`. -/
theorem embedCore_obj (f : String → List ℚ) (kvs : List (String × Json)) (inp : Json)
    (h : kvs.lookup "inputs" = some inp) :
    embedCore f (.ok (.obj kvs)) =
      match modelEncode f (pyTexts inp) with
      | .error m => .error m
      | .ok embeddings =>
        if inp.isStr then
          match embeddings with
          | [] => .error "list index out of range"
          | v :: _ => .ok ⟨200, vecJson v⟩
        else
          .ok ⟨200, Json.arr (embeddings.map vecJson)⟩ := by
  cases kvs with
  | nil => simp [List.lookup] at h
  | cons kv rest =>
    simp [embedCore, Json.truthy, Json.containsKey, Json.getItem, h]

/-- A body binding `inputs` to a single string yields the 200 response
whose body is that one flat embedding vector. -/
theorem embedHandler_single (f : String → List ℚ) (kvs : List (String × Json)) (s : String)
    (h : kvs.lookup "inputs" = some (.str s)) :
    embedHandler f (.ok (.obj kvs)) = ⟨200, vecJson (f s)⟩ := by
  unfold embedHandler
  rw [embedCore_obj f kvs _ h]
  simp [pyTexts, modelEncode, asStrings, Json.isStr]

/-- A body binding `inputs` to a list of strings yields the 200 response
whose body is the list of embedding vectors in input order. -/
theorem embedHandler_batch (f : String → List ℚ) (kvs : List (String × Json))
    (js : List Json) (ss : List String)
    (h : kvs.lookup "inputs" = some (.arr js)) (hs : asStrings js = some ss) :
    embedHandler f (.ok (.obj kvs)) =
      ⟨200, Json.arr (ss.map (fun t => vecJson (f t)))⟩ := by
  unfold embedHandler
  rw [embedCore_obj f kvs _ h]
  simp [pyTexts, modelEncode, hs, Json.isStr, List.map_map, Function.comp]

/-- Mapping `Json.str` over strings and reading the strings back. -/
theorem asStrings_map_str (ss : List String) :
    asStrings (ss.map Json.str) = some ss := by
  induction ss with
  | nil => rfl
  | cons s rest ih => simp [asStrings, ih]

/-- A falsy parsed body, or a truthy one whose membership test succeeds
and finds no `inputs`, yields the 400 missing-inputs response. -/
theorem embedHandler_missing (f : String → List ℚ) (data : Json)
    (h : data.truthy = false ∨ data.containsKey "inputs" = .ok false) :
    embedHandler f (.ok data) = ⟨400, errJson "Missing inputs field"⟩ := by
  unfold embedHandler embedCore
  rcases h with h | h
  · simp [h]
  · by_cases ht : data.truthy = false
    · simp [ht]
    · simp [ht, h]

/-! ## Claims -/

/-- C1: a POST /embed body binding `inputs` to a single string `s` gets a
success response whose body is the single embedding vector of `s` itself, a
flat list of numbers not wrapped in an outer list. -/
theorem C1_single_string_response (f : String → List ℚ) (kvs : List (String × Json))
    (s : String) (h : kvs.lookup "inputs" = some (.str s)) :
    embedHandler f (.ok (.obj kvs)) = ⟨200, vecJson (f s)⟩ :=
  embedHandler_single f kvs s h

/-- C1 witness: the single-string scenario at a concrete input. -/
theorem C1_single_string_response_witness :
    embedHandler sampleEmbed (.ok (.obj [("inputs", .str "hello world")])) =
      ⟨200, vecJson (sampleEmbed "hello world")⟩ :=
  C1_single_string_response sampleEmbed _ _ rfl

/-- C2: a POST /embed body binding `inputs` to a sequence of N strings gets
a success response that is a sequence of exactly N vectors in input order,
the i-th being the embedding of the i-th input text. -/
theorem C2_batch_response (f : String → List ℚ) (kvs : List (String × Json))
    (ss : List String) (h : kvs.lookup "inputs" = some (.arr (ss.map Json.str))) :
    embedHandler f (.ok (.obj kvs)) =
      ⟨200, Json.arr (ss.map (fun t => vecJson (f t)))⟩ ∧
    (ss.map (fun t => vecJson (f t))).length = ss.length ∧
    ∀ i : ℕ, (ss.map (fun t => vecJson (f t))).get? i =
      (ss.get? i).map (fun t => vecJson (f t)) := by
  refine ⟨embedHandler_batch f kvs _ ss h (asStrings_map_str ss), List.length_map _ _, ?_⟩
  intro i
  exact List.get?_map _ _ _

/-- C2 witness: the two-string batch scenario at a concrete input. -/
theorem C2_batch_response_witness :
    embedHandler sampleEmbed (.ok (.obj [("inputs", .arr [.str "a", .str "b"])])) =
      ⟨200, Json.arr [vecJson (sampleEmbed "a"), vecJson (sampleEmbed "b")]⟩ :=
  (C2_batch_response sampleEmbed [("inputs", .arr [.str "a", .str "b"])] ["a", "b"] rfl).1

/-- C3 counterexample: the body `true` parses as JSON and contains no
`inputs` key, yet the handler does not respond 400: the Python membership
test `inputs not in data` raises `TypeError` on a boolean, the `except`
clause catches it, and the response status is 500. -/
theorem C3_counterexample :
    (embedHandler sampleEmbed (.ok (.bool true))).status = 500 ∧
    (embedHandler sampleEmbed (.ok (.bool true))).status ≠ 400 := by
  constructor <;> decide

/-- C3 amended: a parsed body that is falsy (such as `{}`, `[]`, `null`),
or whose membership test succeeds and finds no `inputs` key, gets the 400
response with body `error: Missing inputs field`; truthy non-container
bodies such as numbers and booleans instead raise in the membership test
and get a 500 response. -/
theorem C3_missing_inputs_amended (f : String → List ℚ) (data : Json)
    (h : data.truthy = false ∨ data.containsKey "inputs" = .ok false) :
    embedHandler f (.ok data) = ⟨400, errJson "Missing inputs field"⟩ :=
  embedHandler_missing f data h

/-- C3 witness: the concrete `{}` scenario. -/
theorem C3_missing_inputs_amended_witness :
    embedHandler sampleEmbed (.ok (.obj [])) = ⟨400, errJson "Missing inputs field"⟩ :=
  C3_missing_inputs_amended sampleEmbed (.obj []) (Or.inl rfl)

/-- C4 counterexample: a body that does not parse as JSON (empty or
malformed, declared as JSON) makes `request.get_json()` raise
`BadRequest`; the `except` clause catches it and the handler responds 500,
which is not a 400-class client-error status. -/
theorem C4_counterexample :
    (embedHandler sampleEmbed (.raises badRequestMsg)).status = 500 ∧
    ¬(400 ≤ (embedHandler sampleEmbed (.raises badRequestMsg)).status ∧
      (embedHandler sampleEmbed (.raises badRequestMsg)).status < 500) := by
  constructor <;> decide

/-- C4 amended: when the JSON accessor yields no data (no JSON body
declared) the handler responds 400 with `Missing inputs field`; when the
accessor raises a parse exception (empty or malformed declared-JSON body)
the catch-all responds 500 with the exception message. -/
theorem C4_body_parse_amended (f : String → List ℚ) (m : String) :
    embedHandler f .noJson = ⟨400, errJson "Missing inputs field"⟩ ∧
    embedHandler f (.raises m) = ⟨500, errJson m⟩ :=
  ⟨rfl, rfl⟩

/-- C5: any exception raised during parsing, validation or encoding is
caught and becomes a 500 response whose body is exactly the error object
carrying the exception message (no partial batch results), and the
requests that follow are served exactly as if the failing request had not
happened. -/
theorem C5_exception_caught (f : String → List ℚ) (g : GetJsonOutcome) (m : String)
    (name : String) (rs : List Request) (h : embedCore f g = .error m) :
    embedHandler f g = ⟨500, errJson m⟩ ∧
    (serve ⟨name, f⟩ (.postEmbed g :: rs)).1 =
      ⟨500, errJson m⟩ :: (serve ⟨name, f⟩ rs).1 := by
  have h1 : embedHandler f g = ⟨500, errJson m⟩ := by
    unfold embedHandler
    rw [h]
  refine ⟨h1, ?_⟩
  show (handle _ _).1 :: (serve (handle _ _).2 rs).1 = _
  rw [handle_snd]
  simp [handle, h1]

/-- C5 witness: a raised exception at a concrete request. -/
theorem C5_exception_caught_witness :
    embedHandler sampleEmbed (.raises "boom") = ⟨500, errJson "boom"⟩ ∧
    (serve ⟨"m", sampleEmbed⟩ [.postEmbed (.raises "boom")]).1 =
      [⟨500, errJson "boom"⟩] := by
  have h := C5_exception_caught sampleEmbed (.raises "boom") "boom" "m" [] rfl
  exact ⟨h.1, by rw [h.2]; rfl⟩

/-- C6 counterexample: `inputs` bound to `true` is neither a string nor a
sequence of strings, yet the handler does not reject it with a 400-class
status: the value is passed to the encoder, which fails inside the
library, and the catch-all responds 500. -/
theorem C6_counterexample :
    (embedHandler sampleEmbed (.ok (.obj [("inputs", .bool true)]))).status = 500 ∧
    ¬(400 ≤ (embedHandler sampleEmbed (.ok (.obj [("inputs", .bool true)]))).status ∧
      (embedHandler sampleEmbed (.ok (.obj [("inputs", .bool true)]))).status < 500) := by
  constructor <;> decide

/-- C6 amended: an `inputs` value that is not a string and on which the
encode call fails is rejected with a server-error 500 response carrying
the encoder exception message, not with a 400-class response. -/
theorem C6_nonstring_inputs_amended (f : String → List ℚ) (kvs : List (String × Json))
    (inp : Json) (m : String) (h : kvs.lookup "inputs" = some inp)
    (hstr : inp.isStr = false) (he : modelEncode f inp = .error m) :
    embedHandler f (.ok (.obj kvs)) = ⟨500, errJson m⟩ := by
  have hp : pyTexts inp = inp := by
    cases inp <;> simp_all [pyTexts, Json.isStr]
  unfold embedHandler
  rw [embedCore_obj f kvs _ h, hp, he]

/-- C6 witness: the amended behaviour at the concrete input `true`. -/
theorem C6_nonstring_inputs_amended_witness :
    embedHandler sampleEmbed (.ok (.obj [("inputs", .bool true)])) =
      ⟨500, errJson "encode failed: inputs must be a sequence of strings"⟩ :=
  C6_nonstring_inputs_amended sampleEmbed _ (.bool true) _ rfl rfl rfl

/-- C7: after any sequence of prior requests, a GET /health request
returns exactly status ok plus the model identifier resolved from the
environment (or the default) at startup. -/
theorem C7_health_constant (env : Option String) (loaded : String → List ℚ)
    (rs : List Request) :
    (handle (serve (initState env loaded) rs).2 .getHealth).1 =
      ⟨200, .obj [("status", .str "ok"), ("model", .str (resolveModelName env))]⟩ := by
  rw [serve_snd]
  rfl

/-- C8: handling any request, and serving any sequence of requests, leaves
the process-lifetime state (the loaded model and its identifier)
unchanged. -/
theorem C8_state_immutable (st : ServerState) (r : Request) (rs : List Request) :
    (handle st r).2 = st ∧ (serve st rs).2 = st :=
  ⟨handle_snd st r, serve_snd st rs⟩

/-- C9: two separate /embed requests in one served sequence that carry the
same input text receive identical responses, namely the embedding vector
of that text under the fixed loaded model. -/
theorem C9_deterministic (st : ServerState) (rs : List Request) (s : String) (i j : ℕ)
    (h1 : rs.get? i = some (.postEmbed (.ok (.obj [("inputs", .str s)]))))
    (h2 : rs.get? j = some (.postEmbed (.ok (.obj [("inputs", .str s)])))) :
    (serve st rs).1.get? i = (serve st rs).1.get? j ∧
    (serve st rs).1.get? i = some ⟨200, vecJson (st.model s)⟩ := by
  have key : ∀ k : ℕ,
      rs.get? k = some (.postEmbed (.ok (.obj [("inputs", .str s)]))) →
      (serve st rs).1.get? k = some ⟨200, vecJson (st.model s)⟩ := by
    intro k hk
    rw [serve_fst, List.get?_map, hk]
    simp [handle, embedHandler_single st.model [("inputs", .str s)] s rfl]
  refine ⟨?_, key i h1⟩
  rw [key i h1, key j h2]

/-- C9 witness: the same text sent twice in one served sequence. -/
theorem C9_deterministic_witness :
    (serve ⟨"m", sampleEmbed⟩
        [.postEmbed (.ok (.obj [("inputs", .str "hi")])),
         .postEmbed (.ok (.obj [("inputs", .str "hi")]))]).1.get? 0 =
      (serve ⟨"m", sampleEmbed⟩
        [.postEmbed (.ok (.obj [("inputs", .str "hi")])),
         .postEmbed (.ok (.obj [("inputs", .str "hi")]))]).1.get? 1 ∧
    (serve ⟨"m", sampleEmbed⟩
        [.postEmbed (.ok (.obj [("inputs", .str "hi")])),
         .postEmbed (.ok (.obj [("inputs", .str "hi")]))]).1.get? 0 =
      some ⟨200, vecJson (sampleEmbed "hi")⟩ :=
  C9_deterministic ⟨"m", sampleEmbed⟩ _ "hi" 0 1 rfl rfl

/-- C10: the body binding `inputs` to the empty list gets a success
response whose body is the empty list, not the missing-inputs error. -/
theorem C10_empty_batch (f : String → List ℚ) :
    embedHandler f (.ok (.obj [("inputs", Json.arr [])])) = ⟨200, Json.arr []⟩ :=
  embedHandler_batch f [("inputs", Json.arr [])] [] [] rfl rfl

end EmbeddingServer
